import Mathlib

/-!
Shallow embedding of the fc-tec-ch-02 rate limiter.

Source files embedded here:
- internal/limiter/limiter.go  : RateLimiter (NewRateLimiter, Check, Increment)
- internal/limiter/service.go  : Service (NewService, CheckIP, IncrementIP,
  CheckToken, IncrementToken, CheckAndIncrement)
- internal/limiter/limiter_test.go : mockStorage, the in-repo in-memory
  implementation of the storage.Storage contract (Increment, Get, Clear)

Modelling conventions:
- time.Time and time.Duration are modelled as Int (absolute instants and
  durations on one clock); the zero value time.Time\x7b\x7d is 0.
- Go time.Now() is passed explicitly: every operation takes the current
  instant `now`; one service decision uses a single instant, matching a
  single request being processed.
- The storage.Storage interface is a record of state-passing functions over
  an abstract state type; errors are modelled with Except.
- Go error values: nil error is `none`; ErrLimitExceeded and store errors
  are the two constructors of LimitErr.
-/

/-- The durable record for one key (storage.RateLimitInfo): a count and the
absolute instant at which the window ends. -/
structure RateLimitInfo where
  count : Int
  resetTime : Int
deriving DecidableEq

/-- An opaque store-level error value (a non-nil Go error from the storage
backend), carrying its message. -/
structure StoreErr where
  msg : String
deriving DecidableEq

/-- The errors a limiter decision can carry: ErrLimitExceeded from
limiter.go, or an error propagated from the storage backend. -/
inductive LimitErr where
  | limitExceeded : LimitErr
  | store : StoreErr → LimitErr
deriving DecidableEq

/-- The storage.Storage contract consumed by the limiter, over an abstract
store state σ. Each operation receives the current instant and returns its
result together with the successor state. -/
structure Storage (σ : Type) where
  get : Int → String → σ → (Except StoreErr (Option RateLimitInfo)) × σ
  increment : Int → String → Int → σ → (Except StoreErr (Int × Int)) × σ
  clear : Int → String → σ → (Except StoreErr Unit) × σ

/-- limiter.RateLimiter: a storage handle plus one policy
(maxReqs, blockTime). -/
structure RateLimiter (σ : Type) where
  storage : Storage σ
  maxReqs : Int
  blockTime : Int

/-- limiter.NewRateLimiter: builds the struct verbatim, with no validation
of the policy fields. -/
def NewRateLimiter {σ : Type} (storage : Storage σ) (maxRequests : Int)
    (blockTime : Int) : RateLimiter σ :=
  { storage := storage, maxReqs := maxRequests, blockTime := blockTime }

/-- limiter.RateLimiter.Check: admission decision for one key.
Mirrors limiter.go lines 33-61: get the record; on store error fail with
admitted=false; absent record admits with informational reset now+blockTime;
an expired record is cleared and the request admitted; a live record denies
with ErrLimitExceeded when count has reached maxReqs, else admits. -/
def RateLimiter.Check {σ : Type} (rl : RateLimiter σ) (now : Int)
    (identifier : String) (st : σ) : (Bool × Int × Option LimitErr) × σ :=
  match rl.storage.get now identifier st with
  | (Except.error e, st₁) => ((false, 0, some (LimitErr.store e)), st₁)
  | (Except.ok none, st₁) => ((true, now + rl.blockTime, none), st₁)
  | (Except.ok (some info), st₁) =>
    if info.resetTime < now then
      match rl.storage.clear now identifier st₁ with
      | (Except.error e, st₂) => ((false, 0, some (LimitErr.store e)), st₂)
      | (Except.ok _, st₂) => ((true, now + rl.blockTime, none), st₂)
    else if rl.maxReqs ≤ info.count then
      ((false, info.resetTime, some LimitErr.limitExceeded), st₁)
    else
      ((true, info.resetTime, none), st₁)

/-- limiter.RateLimiter.Increment: delegates to the store's atomic
increment-with-expiry using the policy's blockTime as TTL. -/
def RateLimiter.Increment {σ : Type} (rl : RateLimiter σ) (now : Int)
    (identifier : String) (st : σ) : (Except StoreErr (Int × Int)) × σ :=
  rl.storage.increment now identifier rl.blockTime st

/-- config.TokenLimit: a per-token override policy. -/
structure TokenLimit where
  maxRequests : Int
  ttl : Int
deriving DecidableEq

/-- config.Config, restricted to the fields the limiter service reads.
TokenLimits is the Go map, modelled as its lookup function. -/
structure Config where
  maxRequestsPerSecond : Int
  blockingTime : Int
  tokenLimits : String → Option TokenLimit
  enableIPRateLimiter : Bool
  enableTokenRateLimiter : Bool

/-- limiter.Service: the two limiters, the storage handle and the config. -/
structure Service (σ : Type) where
  ipLimiter : RateLimiter σ
  tokenLimiter : RateLimiter σ
  storage : Storage σ
  config : Config

/-- limiter.NewService: one limiter built from the default policy, shared
as both the ip and the token limiter; no validation of the config. -/
def NewService {σ : Type} (storage : Storage σ) (cfg : Config) : Service σ :=
  let ipLimiter := NewRateLimiter storage cfg.maxRequestsPerSecond cfg.blockingTime
  { ipLimiter := ipLimiter, tokenLimiter := ipLimiter,
    storage := storage, config := cfg }

/-- limiter.Service.CheckIP: short-circuits to admitted when IP limiting is
disabled, else checks the ip-namespaced key on the default limiter. -/
def Service.CheckIP {σ : Type} (s : Service σ) (now : Int) (ip : String)
    (st : σ) : (Bool × Int × Option LimitErr) × σ :=
  if !s.config.enableIPRateLimiter then ((true, 0, none), st)
  else s.ipLimiter.Check now ("ip:" ++ ip) st

/-- limiter.Service.IncrementIP: no-op when IP limiting is disabled, else
increments the ip-namespaced key on the default limiter. -/
def Service.IncrementIP {σ : Type} (s : Service σ) (now : Int) (ip : String)
    (st : σ) : (Except StoreErr (Int × Int)) × σ :=
  if !s.config.enableIPRateLimiter then (Except.ok (0, 0), st)
  else s.ipLimiter.Increment now ("ip:" ++ ip) st

/-- limiter.Service.CheckToken: short-circuits to admitted when token
limiting is disabled; with an explicit override a fresh limiter is built
from the override policy, else the default ip limiter is used, always on
the token-namespaced key. -/
def Service.CheckToken {σ : Type} (s : Service σ) (now : Int) (token : String)
    (st : σ) : (Bool × Int × Option LimitErr) × σ :=
  if !s.config.enableTokenRateLimiter then ((true, 0, none), st)
  else
    match s.config.tokenLimits token with
    | some tokenLimit =>
      (NewRateLimiter s.storage tokenLimit.maxRequests tokenLimit.ttl).Check
        now ("token:" ++ token) st
    | none => s.ipLimiter.Check now ("token:" ++ token) st

/-- limiter.Service.IncrementToken: no-op when token limiting is disabled;
override tokens increment under their own policy, others under the default
limiter, always on the token-namespaced key. -/
def Service.IncrementToken {σ : Type} (s : Service σ) (now : Int)
    (token : String) (st : σ) : (Except StoreErr (Int × Int)) × σ :=
  if !s.config.enableTokenRateLimiter then (Except.ok (0, 0), st)
  else
    match s.config.tokenLimits token with
    | some tokenLimit =>
      (NewRateLimiter s.storage tokenLimit.maxRequests tokenLimit.ttl).Increment
        now ("token:" ++ token) st
    | none => s.ipLimiter.Increment now ("token:" ++ token) st

/-- limiter.Service.CheckAndIncrement: the top-level decision. A non-empty
token routes to token check-then-record and returns without consulting IP
state; otherwise the IP pair runs. The record call's own result is
discarded, and a denied check returns immediately. -/
def Service.CheckAndIncrement {σ : Type} (s : Service σ) (now : Int)
    (ip token : String) (st : σ) : (Bool × Int × Option LimitErr) × σ :=
  if token ≠ "" then
    let r := s.CheckToken now token st
    if !r.1.1 then ((false, r.1.2.1, r.1.2.2), r.2)
    else ((true, r.1.2.1, none), (s.IncrementToken now token r.2).2)
  else
    let r := s.CheckIP now ip st
    if !r.1.1 then ((false, r.1.2.1, r.1.2.2), r.2)
    else ((true, r.1.2.1, none), (s.IncrementIP now ip r.2).2)

/-- The concrete store state: one record per key, as in the in-repo mock
storage of limiter_test.go. -/
def Store : Type := String → Option RateLimitInfo

/-- Pointwise map update for the concrete store state. -/
def Store.update (st : Store) (k : String) (v : Option RateLimitInfo) : Store :=
  fun q => if q = k then v else st q

/-- The store with no records. -/
def emptyStore : Store := fun _ => none

/-- The in-repo mock storage from limiter_test.go: Get returns the literal
record even when expired, Increment restarts an expired window at count 1
and otherwise bumps the live count keeping its reset time, Clear deletes.
None of its operations fail. -/
def mockStorage : Storage Store where
  get := fun _ key st => (Except.ok (st key), st)
  increment := fun now key ttl st =>
    match st key with
    | some info =>
      if info.resetTime < now then
        (Except.ok (1, now + ttl), st.update key (some ⟨1, now + ttl⟩))
      else
        (Except.ok (info.count + 1, info.resetTime),
          st.update key (some ⟨info.count + 1, info.resetTime⟩))
    | none => (Except.ok (1, now + ttl), st.update key (some ⟨1, now + ttl⟩))
  clear := fun _ key st => (Except.ok (), st.update key none)

theorem Store.update_self (st : Store) (k : String) (v : Option RateLimitInfo) :
    st.update k v k = v := by
  simp [Store.update]

theorem Store.update_ne (st : Store) (k q : String) (v : Option RateLimitInfo)
    (h : q ≠ k) : st.update k v q = st q := by
  simp [Store.update, h]

/-- Token-namespaced keys and ip-namespaced keys never coincide: the two
namespaces start with different characters. -/
theorem token_key_ne_ip_key (a b : String) : ("token:" ++ a) ≠ ("ip:" ++ b) := by
  intro h
  have hd := congrArg String.data h
  rw [String.data_append, String.data_append] at hd
  have h1 : "token:".data = ['t','o','k','e','n',':'] := rfl
  have h2 : "ip:".data = ['i','p',':'] := rfl
  rw [h1, h2] at hd
  simp at hd

/-- Symmetric form of the key-namespace disjointness. -/
theorem ip_key_ne_token_key (a b : String) : ("ip:" ++ a) ≠ ("token:" ++ b) :=
  fun h => token_key_ne_ip_key b a h.symm

/-- Decision on the IP path against a fresh key over the mock store: admitted,
reset now+window, record created with count 1. -/
theorem CAI_ip_fresh (cfg : Config) (hip : cfg.enableIPRateLimiter = true)
    (t : Int) (ip : String) (st : Store) (hf : st ("ip:" ++ ip) = none) :
    (NewService mockStorage cfg).CheckAndIncrement t ip "" st
      = ((true, t + cfg.blockingTime, none),
         st.update ("ip:" ++ ip) (some ⟨1, t + cfg.blockingTime⟩)) := by
  simp [Service.CheckAndIncrement, Service.CheckIP, Service.IncrementIP,
        NewService, NewRateLimiter, RateLimiter.Check, RateLimiter.Increment,
        mockStorage, hip, hf]

/-- Decision on the IP path against a live under-limit record over the mock
store: admitted, the stored reset time is reported, the count is bumped. -/
theorem CAI_ip_live_admit (cfg : Config) (hip : cfg.enableIPRateLimiter = true)
    (t c rt : Int) (ip : String) (st : Store)
    (hrec : st ("ip:" ++ ip) = some ⟨c, rt⟩) (hlive : ¬ rt < t)
    (hc : c < cfg.maxRequestsPerSecond) :
    (NewService mockStorage cfg).CheckAndIncrement t ip "" st
      = ((true, rt, none), st.update ("ip:" ++ ip) (some ⟨c + 1, rt⟩)) := by
  simp [Service.CheckAndIncrement, Service.CheckIP, Service.IncrementIP,
        NewService, NewRateLimiter, RateLimiter.Check, RateLimiter.Increment,
        mockStorage, hip, hrec, hlive, not_le.mpr hc]

/-- Decision on the IP path against a live at-limit record over the mock
store: denied with ErrLimitExceeded, store untouched. -/
theorem CAI_ip_live_deny (cfg : Config) (hip : cfg.enableIPRateLimiter = true)
    (t c rt : Int) (ip : String) (st : Store)
    (hrec : st ("ip:" ++ ip) = some ⟨c, rt⟩) (hlive : ¬ rt < t)
    (hc : cfg.maxRequestsPerSecond ≤ c) :
    (NewService mockStorage cfg).CheckAndIncrement t ip "" st
      = ((false, rt, some LimitErr.limitExceeded), st) := by
  simp [Service.CheckAndIncrement, Service.CheckIP, Service.IncrementIP,
        NewService, NewRateLimiter, RateLimiter.Check, RateLimiter.Increment,
        mockStorage, hip, hrec, hlive, hc]

/-- Decision on the IP path against an expired record over the mock store:
the stale record is cleared, the request admitted, and the record restarts
at count 1 with a fresh window. -/
theorem CAI_ip_expired (cfg : Config) (hip : cfg.enableIPRateLimiter = true)
    (t c rt : Int) (ip : String) (st : Store)
    (hrec : st ("ip:" ++ ip) = some ⟨c, rt⟩) (hexp : rt < t) :
    (NewService mockStorage cfg).CheckAndIncrement t ip "" st
      = ((true, t + cfg.blockingTime, none),
         (st.update ("ip:" ++ ip) none).update ("ip:" ++ ip)
           (some ⟨1, t + cfg.blockingTime⟩)) := by
  simp [Service.CheckAndIncrement, Service.CheckIP, Service.IncrementIP,
        NewService, NewRateLimiter, RateLimiter.Check, RateLimiter.Increment,
        mockStorage, hip, hrec, hexp, Store.update_self]

/-- Runs one CheckAndIncrement decision per listed instant, threading the
store state, and collects the decisions in order. -/
def runSeq {σ : Type} (s : Service σ) (ip token : String) :
    List Int → σ → List (Bool × Int × Option LimitErr) × σ
  | [], st => ([], st)
  | t :: ts, st =>
    let r := s.CheckAndIncrement t ip token st
    let rest := runSeq s ip token ts r.2
    (r.1 :: rest.1, rest.2)

/-- A default-policy config with both limiter classes enabled and no
token overrides. -/
def cfgN (n : Nat) (w : Int) : Config :=
  { maxRequestsPerSecond := (n : Int), blockingTime := w,
    tokenLimits := fun _ => none,
    enableIPRateLimiter := true, enableTokenRateLimiter := true }

/-- Invariant step for a live window on the IP path: while the stored count
plus the number of remaining in-window requests stays within the limit,
every remaining request is admitted with the stored reset time and the
count grows by one per request. -/
theorem runSeq_live (n : Nat) (w rt : Int) (ip : String) :
    ∀ (ts : List Int) (c : Int) (st : Store),
    st ("ip:" ++ ip) = some ⟨c, rt⟩ →
    (∀ t ∈ ts, t ≤ rt) →
    c + ts.length ≤ (n : Int) →
    (runSeq (NewService mockStorage (cfgN n w)) ip "" ts st).1
        = ts.map (fun _ => (true, rt, none))
      ∧ (runSeq (NewService mockStorage (cfgN n w)) ip "" ts st).2 ("ip:" ++ ip)
        = some ⟨c + ts.length, rt⟩ := by
  intro ts
  induction ts with
  | nil =>
    intro c st hrec _ _
    simpa [runSeq] using hrec
  | cons t ts ih =>
    intro c st hrec hts hcount
    have ht : t ≤ rt := hts t (List.mem_cons_self t ts)
    have hclt : c < (cfgN n w).maxRequestsPerSecond := by
      simp only [cfgN, List.length_cons] at hcount ⊢
      omega
    have hstep := CAI_ip_live_admit (cfgN n w) rfl t c rt ip st hrec
      (not_lt.mpr ht) hclt
    have hrec2 : (st.update ("ip:" ++ ip) (some ⟨c + 1, rt⟩)) ("ip:" ++ ip)
        = some ⟨c + 1, rt⟩ := Store.update_self _ _ _
    have hts2 : ∀ x ∈ ts, x ≤ rt := fun x hx => hts x (List.mem_cons_of_mem t hx)
    have hcount2 : (c + 1) + ts.length ≤ (n : Int) := by
      simp only [List.length_cons] at hcount
      push_cast at hcount ⊢
      omega
    have hrest := ih (c + 1) (st.update ("ip:" ++ ip) (some ⟨c + 1, rt⟩))
      hrec2 hts2 hcount2
    refine ⟨?_, ?_⟩
    · simp [runSeq, hstep, hrest.1]
    · simp only [runSeq, hstep]
    
      rw [hrest.2]
      simp only [List.length_cons]
      push_cast
      ring_nf

/-- Running a split sequence of instants is running the two halves in
order, threading the store state. -/
theorem runSeq_append {σ : Type} (s : Service σ) (ip token : String)
    (xs ys : List Int) (st : σ) :
    runSeq s ip token (xs ++ ys) st
      = ((runSeq s ip token xs st).1
           ++ (runSeq s ip token ys (runSeq s ip token xs st).2).1,
         (runSeq s ip token ys (runSeq s ip token xs st).2).2) := by
  induction xs generalizing st with
  | nil => simp [runSeq]
  | cons x xs ih => simp [runSeq, ih]

/-- Claim C3: for every key under the default limit maxRequests = N with no
overrides, starting from a fresh record, the first N sequential decisions
within one window are all admitted, and the next decision in the same
window is denied with LimitExceeded and the reset time that the first
request established (first instant plus window). -/
theorem C3_first_window_admits_then_denies (n : Nat) (hn : 0 < n)
    (w t1 tE : Int) (ip : String) (ts : List Int) (st0 : Store)
    (hfresh : st0 ("ip:" ++ ip) = none)
    (hlen : ts.length = n - 1)
    (hts : ∀ t ∈ ts, t ≤ t1 + w)
    (htE : tE ≤ t1 + w) :
    (runSeq (NewService mockStorage (cfgN n w)) ip "" (t1 :: (ts ++ [tE])) st0).1
      = List.replicate n (true, t1 + w, (none : Option LimitErr))
          ++ [(false, t1 + w, some LimitErr.limitExceeded)] := by
  have h1 := CAI_ip_fresh (cfgN n w) rfl t1 ip st0 hfresh
  rw [show (cfgN n w).blockingTime = w from rfl] at h1
  have hrec1 : (st0.update ("ip:" ++ ip) (some ⟨1, t1 + w⟩)) ("ip:" ++ ip)
      = some ⟨1, t1 + w⟩ := Store.update_self _ _ _
  have hcnt : (1 : Int) + ts.length ≤ (n : Int) := by omega
  have hlive := runSeq_live n w (t1 + w) ip ts 1
    (st0.update ("ip:" ++ ip) (some ⟨1, t1 + w⟩)) hrec1 hts hcnt
  have hge : (cfgN n w).maxRequestsPerSecond ≤ (1 : Int) + ts.length := by
    rw [show (cfgN n w).maxRequestsPerSecond = (n : Int) from rfl]
    omega
  have hdeny := CAI_ip_live_deny (cfgN n w) rfl tE ((1 : Int) + ts.length)
    (t1 + w) ip _ hlive.2 (not_lt.mpr htE) hge
  have hrep : (true, t1 + w, (none : Option LimitErr))
        :: List.replicate (n - 1) (true, t1 + w, (none : Option LimitErr))
      = List.replicate n (true, t1 + w, (none : Option LimitErr)) := by
    rw [← List.replicate_succ]
    congr 1
    omega
  simp only [runSeq, h1, runSeq_append, hlive.1, hdeny]
  rw [show ts.map (fun _ => (true, t1 + w, (none : Option LimitErr)))
        = List.replicate ts.length (true, t1 + w, (none : Option LimitErr))
      from List.map_const' ts _, hlen]
  rw [← List.cons_append, hrep]

/-- Claim C3 witness: maxRequests 2, window 100, fresh key, instants 0 and 3
admitted, instant 5 denied with the reset time 0+100 from the first call. -/
theorem C3_witness :
    emptyStore ("ip:" ++ "a") = none
    ∧ (runSeq (NewService mockStorage (cfgN 2 100)) "a" ""
          (0 :: ([3] ++ [5])) emptyStore).1
        = List.replicate 2 (true, (0 : Int) + 100, (none : Option LimitErr))
            ++ [(false, (0 : Int) + 100, some LimitErr.limitExceeded)] :=
  ⟨rfl, C3_first_window_admits_then_denies 2 (by decide) 100 0 5 "a" [3]
    emptyStore rfl (by decide) (by decide) (by decide)⟩

/-- Claim C4: a stored record whose reset time is in the past is treated as
absent: the next decision for that key is admitted whatever the stale count
was, and the record restarts at count 1 with a fresh window. -/
theorem C4_expired_record_resets (cfg : Config)
    (hip : cfg.enableIPRateLimiter = true) (t c rt : Int) (ip : String)
    (st : Store) (hrec : st ("ip:" ++ ip) = some ⟨c, rt⟩) (hexp : rt < t) :
    ((NewService mockStorage cfg).CheckAndIncrement t ip "" st).1
        = (true, t + cfg.blockingTime, none)
      ∧ ((NewService mockStorage cfg).CheckAndIncrement t ip "" st).2 ("ip:" ++ ip)
        = some ⟨1, t + cfg.blockingTime⟩ := by
  rw [CAI_ip_expired cfg hip t c rt ip st hrec hexp]
  exact ⟨rfl, Store.update_self _ _ _⟩

/-- A store holding one hugely over-limit but expired record. -/
def storeC4 : Store :=
  fun k => if k = "ip:" ++ "a" then some ⟨999, 3⟩ else none

/-- Claim C4 witness: an expired record with count 999 under limit 1 is
still admitted at instant 10 and restarts at count 1. -/
theorem C4_witness :
    storeC4 ("ip:" ++ "a") = some ⟨999, 3⟩ ∧ (3 : Int) < 10
    ∧ ((NewService mockStorage (cfgN 1 100)).CheckAndIncrement 10 "a" "" storeC4).1
        = (true, 10 + (cfgN 1 100).blockingTime, none)
    ∧ ((NewService mockStorage (cfgN 1 100)).CheckAndIncrement 10 "a" "" storeC4).2
          ("ip:" ++ "a")
        = some ⟨1, 10 + (cfgN 1 100).blockingTime⟩ :=
  ⟨by decide, by decide,
   (C4_expired_record_resets (cfgN 1 100) rfl 10 999 3 "a" storeC4 (by decide)
     (by decide)).1,
   (C4_expired_record_resets (cfgN 1 100) rfl 10 999 3 "a" storeC4 (by decide)
     (by decide)).2⟩

/-- Claim C9: whenever the top-level decision returns admitted=true, its
error is nil, for every service, input and store behaviour. -/
theorem C9_admitted_implies_nil_error {σ : Type} (s : Service σ) (t : Int)
    (ip token : String) (st : σ)
    (h : (s.CheckAndIncrement t ip token st).1.1 = true) :
    (s.CheckAndIncrement t ip token st).1.2.2 = none := by
  by_cases htok : token ≠ ""
  · cases hal : (s.CheckToken t token st).1.1 with
    | false => simp [Service.CheckAndIncrement, htok, hal] at h
    | true => simp [Service.CheckAndIncrement, htok, hal]
  · cases hal : (s.CheckIP t ip st).1.1 with
    | false => simp [Service.CheckAndIncrement, htok, hal] at h
    | true => simp [Service.CheckAndIncrement, htok, hal]

/-- Claim C9 witness: a concrete admitted decision carries a nil error. -/
theorem C9_witness :
    ((NewService mockStorage (cfgN 1 100)).CheckAndIncrement 0 "a" "" emptyStore).1.1
        = true
    ∧ ((NewService mockStorage (cfgN 1 100)).CheckAndIncrement 0 "a" "" emptyStore).1.2.2
        = none :=
  ⟨by decide, C9_admitted_implies_nil_error (NewService mockStorage (cfgN 1 100))
    0 "a" "" emptyStore (by decide)⟩

/-- Claim C10: an absent record admits the request whatever maxRequests is
(first conjunct, over any storage behaviour); and with maxRequests = 0 or
negative the first request on a fresh key is still admitted while the next
request inside the window is denied (second conjunct, over the in-repo
store semantics). -/
theorem C10_fresh_key_always_admitted :
    (∀ (σ : Type) (stg : Storage σ) (m w t : Int) (id : String) (st st₁ : σ),
        stg.get t id st = (Except.ok none, st₁) →
        (NewRateLimiter stg m w).Check t id st = ((true, t + w, none), st₁))
    ∧ (∀ (m w t1 t2 : Int) (id : String) (st0 : Store),
        m ≤ 0 → st0 id = none → t2 ≤ t1 + w →
        ((NewRateLimiter mockStorage m w).Check t1 id st0).1 = (true, t1 + w, none)
        ∧ ((NewRateLimiter mockStorage m w).Check t2 id
              ((NewRateLimiter mockStorage m w).Increment t1 id st0).2).1
            = (false, t1 + w, some LimitErr.limitExceeded)) := by
  constructor
  · intro σ stg m w t id st st₁ hget
    simp [NewRateLimiter, RateLimiter.Check, hget]
  · intro m w t1 t2 id st0 hm hf ht
    constructor
    · simp [NewRateLimiter, RateLimiter.Check, mockStorage, hf]
    · simp [NewRateLimiter, RateLimiter.Check, RateLimiter.Increment, mockStorage,
            hf, Store.update_self, not_lt.mpr ht, show m ≤ (1 : Int) by omega]

/-- Claim C10 witness: with maxRequests -2 a fresh key admits at instant 0
and the follow-up at instant 5 in the same window is denied. -/
theorem C10_witness :
    mockStorage.get 3 "k" emptyStore = (Except.ok none, emptyStore)
    ∧ (NewRateLimiter mockStorage (-2) 10).Check 3 "k" emptyStore
        = ((true, 3 + 10, none), emptyStore)
    ∧ ((-2 : Int) ≤ 0 ∧ emptyStore "k" = none ∧ (5 : Int) ≤ 0 + 10)
    ∧ ((NewRateLimiter mockStorage (-2) 10).Check 0 "k" emptyStore).1
        = (true, 0 + 10, none)
    ∧ ((NewRateLimiter mockStorage (-2) 10).Check 5 "k"
          ((NewRateLimiter mockStorage (-2) 10).Increment 0 "k" emptyStore).2).1
        = (false, 0 + 10, some LimitErr.limitExceeded) :=
  ⟨rfl,
   C10_fresh_key_always_admitted.1 Store mockStorage (-2) 10 3 "k"
     emptyStore emptyStore rfl,
   ⟨by decide, rfl, by decide⟩,
   (C10_fresh_key_always_admitted.2 (-2) 10 0 5 "k" emptyStore (by decide) rfl
     (by decide)).1,
   (C10_fresh_key_always_admitted.2 (-2) 10 0 5 "k" emptyStore (by decide) rfl
     (by decide)).2⟩

/-- A config with token limiting disabled, IP limiting enabled, limit 1. -/
def cfgC1 : Config :=
  { maxRequestsPerSecond := 1, blockingTime := 100,
    tokenLimits := fun _ => none,
    enableIPRateLimiter := true, enableTokenRateLimiter := false }

/-- A store whose ip-keyed record is already over the IP limit and live. -/
def storeC1 : Store :=
  fun k => if k = "ip:" ++ "1.2.3.4" then some ⟨5, 50⟩ else none

/-- Claim C1 counterexample: with token limiting disabled and a token
supplied, the decision at instant 10 is admitted, while the same request
with no token is denied by IP limiting on the same store, so the decision
is not evaluated under IP limiting as if no token had been supplied. -/
theorem C1_counterexample :
    (NewService mockStorage cfgC1).CheckAndIncrement 10 "1.2.3.4" "tok" storeC1
      ≠ (NewService mockStorage cfgC1).CheckAndIncrement 10 "1.2.3.4" "" storeC1 := by
  intro h
  exact absurd (congrArg (fun r => r.1.1) h) (by decide)

/-- Claim C1 as amended: when a token is supplied and token limiting is
disabled, the decision is unconditionally admitted with a zero reset time
and nil error, the store untouched; IP limiting is never consulted. -/
theorem C1_token_disabled_bypasses_all_limiting {σ : Type} (s : Service σ)
    (t : Int) (ip token : String) (st : σ) (htok : token ≠ "")
    (hdis : s.config.enableTokenRateLimiter = false) :
    s.CheckAndIncrement t ip token st = ((true, 0, none), st) := by
  simp [Service.CheckAndIncrement, Service.CheckToken, Service.IncrementToken,
        htok, hdis]

/-- Claim C1 witness: the over-limit IP store of the counterexample is
bypassed entirely once a token is supplied with token limiting disabled. -/
theorem C1_witness :
    "tok" ≠ "" ∧ cfgC1.enableTokenRateLimiter = false
    ∧ (NewService mockStorage cfgC1).CheckAndIncrement 10 "1.2.3.4" "tok" storeC1
        = ((true, 0, none), storeC1) :=
  ⟨by decide, rfl,
   C1_token_disabled_bypasses_all_limiting (NewService mockStorage cfgC1)
     10 "1.2.3.4" "tok" storeC1 (by decide) rfl⟩

/-- Claim C2 counterexample: a malformed policy (maxRequests 0, negative
window) is accepted at construction time - NewRateLimiter returns the
limiter struct verbatim, there is no error channel - and the policy is then
evaluated at request time, where the first request is even admitted. -/
theorem C2_counterexample :
    NewRateLimiter mockStorage 0 (-5)
        = { storage := mockStorage, maxReqs := 0, blockTime := -5 }
      ∧ ((NewService mockStorage
            { maxRequestsPerSecond := 0, blockingTime := -5,
              tokenLimits := fun _ => none,
              enableIPRateLimiter := true,
              enableTokenRateLimiter := true }).CheckAndIncrement
            7 "1.2.3.4" "" emptyStore).1
        = (true, 2, none) :=
  ⟨rfl, by decide⟩

/-- Claim C2 as amended: construction never validates the policy. For every
maxRequests and window, including non-positive ones, NewRateLimiter and
NewService succeed and store the fields verbatim, and the malformed policy
is only ever felt at request time, where a fresh key is still admitted. -/
theorem C2_construction_never_validates {σ : Type} (stg : Storage σ)
    (m w : Int) (cfg : Config) :
    NewRateLimiter stg m w = { storage := stg, maxReqs := m, blockTime := w }
    ∧ (NewService stg cfg).ipLimiter
        = NewRateLimiter stg cfg.maxRequestsPerSecond cfg.blockingTime
    ∧ ((NewRateLimiter mockStorage m w).Check 0 "k" emptyStore).1
        = (true, 0 + w, none) := by
  refine ⟨rfl, rfl, ?_⟩
  simp [NewRateLimiter, RateLimiter.Check, mockStorage, emptyStore]

/-- A config whose default policy and one override share no field values. -/
def cfgC8 : Config :=
  { maxRequestsPerSecond := 5, blockingTime := 60,
    tokenLimits := fun tk => if tk = "premium" then some ⟨100, 300⟩ else none,
    enableIPRateLimiter := true, enableTokenRateLimiter := true }

/-- Claim C8: a token with an explicit override is checked and recorded
under a limiter built from exactly the override's maxRequests and TTL; the
behaviour is a function of the override policy alone, so the default policy
is irrelevant even when its field values coincide (third conjunct). -/
theorem C8_override_policy_governs {σ : Type} (s : Service σ) (t : Int)
    (token : String) (st : σ) (tl : TokenLimit)
    (hen : s.config.enableTokenRateLimiter = true)
    (hov : s.config.tokenLimits token = some tl) :
    s.CheckToken t token st
        = (NewRateLimiter s.storage tl.maxRequests tl.ttl).Check t
            ("token:" ++ token) st
      ∧ s.IncrementToken t token st
        = (NewRateLimiter s.storage tl.maxRequests tl.ttl).Increment t
            ("token:" ++ token) st
      ∧ (∀ (s₂ : Service σ), s₂.storage = s.storage →
          s₂.config.enableTokenRateLimiter = true →
          s₂.config.tokenLimits token = some tl →
          s₂.CheckToken t token st = s.CheckToken t token st
          ∧ s₂.IncrementToken t token st = s.IncrementToken t token st) := by
  refine ⟨?_, ?_, ?_⟩
  · simp [Service.CheckToken, hen, hov]
  · simp [Service.IncrementToken, hen, hov]
  · intro s₂ hst hen2 hov2
    constructor
    · simp [Service.CheckToken, hen, hov, hen2, hov2, hst]
    · simp [Service.IncrementToken, hen, hov, hen2, hov2, hst]

/-- Claim C8 witness: the premium override (100 requests per 300) governs
its token checks and records on a service whose default is (5, 60). -/
theorem C8_witness :
    (NewService mockStorage cfgC8).config.tokenLimits "premium"
        = some ⟨100, 300⟩
    ∧ (NewService mockStorage cfgC8).CheckToken 0 "premium" emptyStore
        = (NewRateLimiter (NewService mockStorage cfgC8).storage
            (⟨100, 300⟩ : TokenLimit).maxRequests
            (⟨100, 300⟩ : TokenLimit).ttl).Check 0
            ("token:" ++ "premium") emptyStore
    ∧ (NewService mockStorage cfgC8).IncrementToken 0 "premium" emptyStore
        = (NewRateLimiter (NewService mockStorage cfgC8).storage
            (⟨100, 300⟩ : TokenLimit).maxRequests
            (⟨100, 300⟩ : TokenLimit).ttl).Increment 0
            ("token:" ++ "premium") emptyStore :=
  ⟨by decide,
   (C8_override_policy_governs (NewService mockStorage cfgC8) 0 "premium"
     emptyStore ⟨100, 300⟩ rfl (by decide)).1,
   (C8_override_policy_governs (NewService mockStorage cfgC8) 0 "premium"
     emptyStore ⟨100, 300⟩ rfl (by decide)).2.1⟩

/-- Claim C5: store-level errors during the check phase surface as the
decision's error with admitted=false (conjuncts 1-4: a failing get, a
failing clear on an expired record, and the propagation of a denying check
through the top-level decision on either path); a store-level error during
the record phase after a granted admission is swallowed - the decision is
admitted with nil error whatever the record call returned (conjuncts 5-6). -/
theorem C5_check_errors_surface_record_errors_swallowed :
    (∀ (σ : Type) (stg : Storage σ) (m w t : Int) (id : String) (st st₁ : σ)
        (e : StoreErr),
        stg.get t id st = (Except.error e, st₁) →
        (NewRateLimiter stg m w).Check t id st
          = ((false, 0, some (LimitErr.store e)), st₁))
    ∧ (∀ (σ : Type) (stg : Storage σ) (m w t : Int) (id : String)
        (st st₁ st₂ : σ) (info : RateLimitInfo) (e : StoreErr),
        stg.get t id st = (Except.ok (some info), st₁) →
        info.resetTime < t →
        stg.clear t id st₁ = (Except.error e, st₂) →
        (NewRateLimiter stg m w).Check t id st
          = ((false, 0, some (LimitErr.store e)), st₂))
    ∧ (∀ (σ : Type) (s : Service σ) (t : Int) (ip token : String) (st st₁ : σ)
        (rt : Int) (err : Option LimitErr),
        token ≠ "" →
        s.CheckToken t token st = ((false, rt, err), st₁) →
        s.CheckAndIncrement t ip token st = ((false, rt, err), st₁))
    ∧ (∀ (σ : Type) (s : Service σ) (t : Int) (ip : String) (st st₁ : σ)
        (rt : Int) (err : Option LimitErr),
        s.CheckIP t ip st = ((false, rt, err), st₁) →
        s.CheckAndIncrement t ip "" st = ((false, rt, err), st₁))
    ∧ (∀ (σ : Type) (s : Service σ) (t : Int) (ip token : String) (st st₁ : σ)
        (rt : Int) (err : Option LimitErr),
        token ≠ "" →
        s.CheckToken t token st = ((true, rt, err), st₁) →
        s.CheckAndIncrement t ip token st
          = ((true, rt, none), (s.IncrementToken t token st₁).2))
    ∧ (∀ (σ : Type) (s : Service σ) (t : Int) (ip : String) (st st₁ : σ)
        (rt : Int) (err : Option LimitErr),
        s.CheckIP t ip st = ((true, rt, err), st₁) →
        s.CheckAndIncrement t ip "" st
          = ((true, rt, none), (s.IncrementIP t ip st₁).2)) := by
  refine ⟨?_, ?_, ?_, ?_, ?_, ?_⟩
  · intro σ stg m w t id st st₁ e hget
    simp [NewRateLimiter, RateLimiter.Check, hget]
  · intro σ stg m w t id st st₁ st₂ info e hget hexp hclear
    simp [NewRateLimiter, RateLimiter.Check, hget, hexp, hclear]
  · intro σ s t ip token st st₁ rt err htok hchk
    simp [Service.CheckAndIncrement, htok, hchk]
  · intro σ s t ip st st₁ rt err hchk
    simp [Service.CheckAndIncrement, hchk]
  · intro σ s t ip token st st₁ rt err htok hchk
    simp [Service.CheckAndIncrement, htok, hchk]
  · intro σ s t ip st st₁ rt err hchk
    simp [Service.CheckAndIncrement, hchk]

/-- A storage whose point read always fails. -/
def errGetStorage : Storage Store :=
  { mockStorage with get := fun _ _ st => (Except.error ⟨"get failed"⟩, st) }

/-- A storage whose delete always fails. -/
def errClearStorage : Storage Store :=
  { mockStorage with clear := fun _ _ st => (Except.error ⟨"clear failed"⟩, st) }

/-- A storage whose atomic increment always fails. -/
def errIncrStorage : Storage Store :=
  { mockStorage with
    increment := fun _ _ _ st => (Except.error ⟨"increment failed"⟩, st) }

/-- A store holding an expired record for key k. -/
def storeC5 : Store := fun k => if k = "k" then some ⟨3, 0⟩ else none

/-- A store whose token-keyed record is live and over the default limit. -/
def storeTok : Store :=
  fun k => if k = "token:" ++ "tok" then some ⟨5, 50⟩ else none

/-- A store whose ip-keyed record is live and over the default limit. -/
def storeIPex : Store :=
  fun k => if k = "ip:" ++ "9.9.9.9" then some ⟨5, 50⟩ else none

/-- Claim C5 witness: each conjunct instantiated - failing get surfaces,
failing clear on an expired record surfaces, a denying token or IP check
propagates, and a granted admission survives a failing record call on
either path with nil error. -/
theorem C5_witness :
    (NewRateLimiter errGetStorage 5 100).Check 0 "k" emptyStore
        = ((false, 0, some (LimitErr.store ⟨"get failed"⟩)), emptyStore)
    ∧ (NewRateLimiter errClearStorage 5 100).Check 5 "k" storeC5
        = ((false, 0, some (LimitErr.store ⟨"clear failed"⟩)), storeC5)
    ∧ (NewService mockStorage (cfgN 1 100)).CheckAndIncrement 10 "9.9.9.9" "tok" storeTok
        = ((false, 50, some LimitErr.limitExceeded), storeTok)
    ∧ (NewService mockStorage (cfgN 1 100)).CheckAndIncrement 10 "9.9.9.9" "" storeIPex
        = ((false, 50, some LimitErr.limitExceeded), storeIPex)
    ∧ (NewService errIncrStorage (cfgN 1 100)).CheckAndIncrement 0 "9.9.9.9" "tok" emptyStore
        = ((true, 0 + 100, none),
           ((NewService errIncrStorage (cfgN 1 100)).IncrementToken 0 "tok" emptyStore).2)
    ∧ (NewService errIncrStorage (cfgN 1 100)).CheckAndIncrement 0 "9.9.9.9" "" emptyStore
        = ((true, 0 + 100, none),
           ((NewService errIncrStorage (cfgN 1 100)).IncrementIP 0 "9.9.9.9" emptyStore).2) :=
  ⟨C5_check_errors_surface_record_errors_swallowed.1 Store errGetStorage
     5 100 0 "k" emptyStore emptyStore ⟨"get failed"⟩ rfl,
   C5_check_errors_surface_record_errors_swallowed.2.1 Store errClearStorage
     5 100 5 "k" storeC5 storeC5 storeC5 ⟨3, 0⟩ ⟨"clear failed"⟩ rfl
     (by decide) rfl,
   C5_check_errors_surface_record_errors_swallowed.2.2.1 Store
     (NewService mockStorage (cfgN 1 100)) 10 "9.9.9.9" "tok" storeTok storeTok
     50 (some LimitErr.limitExceeded) (by decide) rfl,
   C5_check_errors_surface_record_errors_swallowed.2.2.2.1 Store
     (NewService mockStorage (cfgN 1 100)) 10 "9.9.9.9" storeIPex storeIPex
     50 (some LimitErr.limitExceeded) rfl,
   C5_check_errors_surface_record_errors_swallowed.2.2.2.2.1 Store
     (NewService errIncrStorage (cfgN 1 100)) 0 "9.9.9.9" "tok" emptyStore
     emptyStore (0 + 100) none (by decide) rfl,
   C5_check_errors_surface_record_errors_swallowed.2.2.2.2.2 Store
     (NewService errIncrStorage (cfgN 1 100)) 0 "9.9.9.9" emptyStore
     emptyStore (0 + 100) none rfl⟩

/-- The kind of a storage call, for observing which store operations a
decision performs. -/
inductive StoreOp where
  | get : StoreOp
  | increment : StoreOp
  | clear : StoreOp
deriving DecidableEq

/-- Recognizer for increment calls. -/
def isIncrementOp : StoreOp → Bool
  | StoreOp.increment => true
  | _ => false

/-- A trace of storage calls: operation kind and the key it targeted. -/
abbrev CallLog : Type := List (StoreOp × String)

/-- Mock store state extended with a call trace. -/
abbrev LogState : Type := Store × CallLog

/-- The mock storage instrumented to append every call (kind, key) to the
trace; results and store effects are exactly those of mockStorage. -/
def loggedMock : Storage LogState where
  get := fun now key s =>
    ((mockStorage.get now key s.1).1,
     ((mockStorage.get now key s.1).2, s.2 ++ [(StoreOp.get, key)]))
  increment := fun now key ttl s =>
    ((mockStorage.increment now key ttl s.1).1,
     ((mockStorage.increment now key ttl s.1).2, s.2 ++ [(StoreOp.increment, key)]))
  clear := fun now key s =>
    ((mockStorage.clear now key s.1).1,
     ((mockStorage.clear now key s.1).2, s.2 ++ [(StoreOp.clear, key)]))

/-- One top-level decision over the instrumented store, started with an
empty trace. -/
def runLogged (cfg : Config) (t : Int) (ip token : String) (st : Store) :
    (Bool × Int × Option LimitErr) × LogState :=
  (NewService loggedMock cfg).CheckAndIncrement t ip token (st, [])

/-- The check-then-record pattern of CheckAndIncrement specialized to one
governing key over the instrumented store: check under policy (m, w), and
when admitted record under policy (m2, w2). -/
def checkThenRecord (m w m2 w2 t : Int) (key : String) (st : Store) :
    (Bool × Int × Option LimitErr) × LogState :=
  let c := (NewRateLimiter loggedMock m w).Check t key (st, [])
  if !c.1.1 then ((false, c.1.2.1, c.1.2.2), c.2)
  else ((true, c.1.2.1, none),
        ((NewRateLimiter loggedMock m2 w2).Increment t key c.2).2)

/-- Exhaustive frame properties of one check-then-record round: a denied
round performs no increment and leaves every record unchanged; a granted
round performs exactly one increment, on the governing key; every call
targets the governing key; and no other record is changed. -/
theorem checkThenRecord_props (m w m2 w2 t : Int) (key : String) (st : Store) :
    ((checkThenRecord m w m2 w2 t key st).1.1 = false →
        (checkThenRecord m w m2 w2 t key st).2.2.filter
            (fun e => isIncrementOp e.1) = []
        ∧ ∀ k, (checkThenRecord m w m2 w2 t key st).2.1 k = st k)
    ∧ ((checkThenRecord m w m2 w2 t key st).1.1 = true →
        (checkThenRecord m w m2 w2 t key st).2.2.filter
            (fun e => isIncrementOp e.1) = [(StoreOp.increment, key)])
    ∧ (∀ e ∈ (checkThenRecord m w m2 w2 t key st).2.2, e.2 = key)
    ∧ (∀ k, k ≠ key → (checkThenRecord m w m2 w2 t key st).2.1 k = st k) := by
  rcases hrec : st key with _ | ⟨c, rt⟩
  · simp only [checkThenRecord, NewRateLimiter, RateLimiter.Check,
          RateLimiter.Increment, loggedMock, mockStorage, hrec]
    simp [isIncrementOp, List.filter]
    intro k hk
    simp [Store.update, hk]
  · by_cases hexp : rt < t
    · simp only [checkThenRecord, NewRateLimiter, RateLimiter.Check,
            RateLimiter.Increment, loggedMock, mockStorage, hrec]
      simp [hexp, isIncrementOp, List.filter, Store.update_self]
      intro k hk
      simp [Store.update, hk]
    · by_cases hle : m ≤ c
      · simp only [checkThenRecord, NewRateLimiter, RateLimiter.Check,
              RateLimiter.Increment, loggedMock, mockStorage, hrec]
        simp [hexp, hle, isIncrementOp, List.filter]
      · simp only [checkThenRecord, NewRateLimiter, RateLimiter.Check,
              RateLimiter.Increment, loggedMock, mockStorage, hrec]
        simp [hexp, hle, isIncrementOp, List.filter]
        intro k hk
        simp [hrec, hexp, Store.update, hk]

/-- With a token present, token limiting enabled and an override configured,
the decision is one check-then-record round under the override policy on
the token key. -/
theorem runLogged_token_override (cfg : Config) (t : Int) (ip token : String)
    (st : Store) (tl : TokenLimit) (htok : token ≠ "")
    (hen : cfg.enableTokenRateLimiter = true)
    (hov : cfg.tokenLimits token = some tl) :
    runLogged cfg t ip token st
      = checkThenRecord tl.maxRequests tl.ttl tl.maxRequests tl.ttl t
          ("token:" ++ token) st := by
  simp [runLogged, checkThenRecord, Service.CheckAndIncrement,
        Service.CheckToken, Service.IncrementToken, NewService, htok, hen, hov]

/-- With a token present, token limiting enabled and no override, the
decision is one check-then-record round under the default policy on the
token key. -/
theorem runLogged_token_default (cfg : Config) (t : Int) (ip token : String)
    (st : Store) (htok : token ≠ "")
    (hen : cfg.enableTokenRateLimiter = true)
    (hov : cfg.tokenLimits token = none) :
    runLogged cfg t ip token st
      = checkThenRecord cfg.maxRequestsPerSecond cfg.blockingTime
          cfg.maxRequestsPerSecond cfg.blockingTime t ("token:" ++ token) st := by
  simp [runLogged, checkThenRecord, Service.CheckAndIncrement,
        Service.CheckToken, Service.IncrementToken, NewService, NewRateLimiter,
        htok, hen, hov]

/-- With no token and IP limiting enabled, the decision is one
check-then-record round under the default policy on the ip key. -/
theorem runLogged_ip (cfg : Config) (t : Int) (ip : String) (st : Store)
    (hip : cfg.enableIPRateLimiter = true) :
    runLogged cfg t ip "" st
      = checkThenRecord cfg.maxRequestsPerSecond cfg.blockingTime
          cfg.maxRequestsPerSecond cfg.blockingTime t ("ip:" ++ ip) st := by
  simp [runLogged, checkThenRecord, Service.CheckAndIncrement,
        Service.CheckIP, Service.IncrementIP, NewService, NewRateLimiter, hip]

/-- With no token and IP limiting disabled, the decision touches the store
not at all. -/
theorem runLogged_ip_disabled (cfg : Config) (t : Int) (ip : String)
    (st : Store) (hip : cfg.enableIPRateLimiter = false) :
    runLogged cfg t ip "" st = ((true, 0, none), (st, [])) := by
  simp [runLogged, Service.CheckAndIncrement, Service.CheckIP,
        Service.IncrementIP, NewService, hip]

/-- Claim C6: when the governing identifier class of a decision is enabled,
a denied decision performs no increment and leaves every stored record
unchanged, and a granted decision performs exactly one increment, against
exactly one key. -/
theorem C6_grant_increments_once (cfg : Config) (t : Int) (ip token : String)
    (st : Store)
    (hgov : (token ≠ "" ∧ cfg.enableTokenRateLimiter = true)
          ∨ (token = "" ∧ cfg.enableIPRateLimiter = true)) :
    ((runLogged cfg t ip token st).1.1 = false →
        (runLogged cfg t ip token st).2.2.filter (fun e => isIncrementOp e.1) = []
        ∧ ∀ k, (runLogged cfg t ip token st).2.1 k = st k)
    ∧ ((runLogged cfg t ip token st).1.1 = true →
        ∃ k, (runLogged cfg t ip token st).2.2.filter
            (fun e => isIncrementOp e.1) = [(StoreOp.increment, k)]) := by
  rcases hgov with ⟨htok, hen⟩ | ⟨htok, hip⟩
  · rcases hov : cfg.tokenLimits token with _ | tl
    · rw [runLogged_token_default cfg t ip token st htok hen hov]
      exact ⟨(checkThenRecord_props _ _ _ _ _ _ _).1,
             fun h => ⟨_, (checkThenRecord_props _ _ _ _ _ _ _).2.1 h⟩⟩
    · rw [runLogged_token_override cfg t ip token st tl htok hen hov]
      exact ⟨(checkThenRecord_props _ _ _ _ _ _ _).1,
             fun h => ⟨_, (checkThenRecord_props _ _ _ _ _ _ _).2.1 h⟩⟩
  · subst htok
    rw [runLogged_ip cfg t ip st hip]
    exact ⟨(checkThenRecord_props _ _ _ _ _ _ _).1,
           fun h => ⟨_, (checkThenRecord_props _ _ _ _ _ _ _).2.1 h⟩⟩

/-- Claim C6 witness: a denied IP-path decision performs zero increments
and leaves the exhausted record untouched. -/
theorem C6_witness :
    (runLogged (cfgN 1 100) 10 "9.9.9.9" "" storeIPex).2.2.filter
        (fun e => isIncrementOp e.1) = []
    ∧ (runLogged (cfgN 1 100) 10 "9.9.9.9" "" storeIPex).2.1 ("ip:" ++ "9.9.9.9")
        = storeIPex ("ip:" ++ "9.9.9.9") :=
  ⟨((C6_grant_increments_once (cfgN 1 100) 10 "9.9.9.9" "" storeIPex
      (Or.inr ⟨rfl, rfl⟩)).1 (by decide)).1,
   ((C6_grant_increments_once (cfgN 1 100) 10 "9.9.9.9" "" storeIPex
      (Or.inr ⟨rfl, rfl⟩)).1 (by decide)).2 ("ip:" ++ "9.9.9.9")⟩

/-- Claim C7: a decision with a token present and token limiting enabled
targets only the token key - the ip key receives no store call and its
record is unchanged; a decision with no token targets only the ip key, and
no token-keyed record is changed. -/
theorem C7_frame_isolation (cfg : Config) (t : Int) (ip token : String)
    (st : Store) :
    (token ≠ "" → cfg.enableTokenRateLimiter = true →
        (∀ e ∈ (runLogged cfg t ip token st).2.2, e.2 = "token:" ++ token)
        ∧ (∀ e ∈ (runLogged cfg t ip token st).2.2, e.2 ≠ "ip:" ++ ip)
        ∧ (runLogged cfg t ip token st).2.1 ("ip:" ++ ip) = st ("ip:" ++ ip))
    ∧ (token = "" →
        (∀ e ∈ (runLogged cfg t ip token st).2.2, e.2 = "ip:" ++ ip)
        ∧ ∀ tk, (runLogged cfg t ip token st).2.1 ("token:" ++ tk)
            = st ("token:" ++ tk)) := by
  constructor
  · intro htok hen
    rcases hov : cfg.tokenLimits token with _ | tl
    · rw [runLogged_token_default cfg t ip token st htok hen hov]
      refine ⟨(checkThenRecord_props _ _ _ _ _ _ _).2.2.1, ?_, ?_⟩
      · intro e he
        rw [(checkThenRecord_props _ _ _ _ _ _ _).2.2.1 e he]
        exact token_key_ne_ip_key token ip
      · exact (checkThenRecord_props _ _ _ _ _ _ _).2.2.2 _
          (ip_key_ne_token_key ip token)
    · rw [runLogged_token_override cfg t ip token st tl htok hen hov]
      refine ⟨(checkThenRecord_props _ _ _ _ _ _ _).2.2.1, ?_, ?_⟩
      · intro e he
        rw [(checkThenRecord_props _ _ _ _ _ _ _).2.2.1 e he]
        exact token_key_ne_ip_key token ip
      · exact (checkThenRecord_props _ _ _ _ _ _ _).2.2.2 _
          (ip_key_ne_token_key ip token)
  · intro htok
    subst htok
    cases hip : cfg.enableIPRateLimiter
    · rw [runLogged_ip_disabled cfg t ip st hip]
      exact ⟨by simp, fun tk => rfl⟩
    · rw [runLogged_ip cfg t ip st hip]
      exact ⟨(checkThenRecord_props _ _ _ _ _ _ _).2.2.1,
             fun tk => (checkThenRecord_props _ _ _ _ _ _ _).2.2.2 _
               (token_key_ne_ip_key tk ip)⟩

/-- Claim C7 witness: a token-path decision leaves the ip-keyed record of
the same request address untouched. -/
theorem C7_witness :
    (runLogged cfgC8 5 "9.9.9.9" "tok" emptyStore).2.1 ("ip:" ++ "9.9.9.9")
      = emptyStore ("ip:" ++ "9.9.9.9") :=
  ((C7_frame_isolation cfgC8 5 "9.9.9.9" "tok" emptyStore).1 (by decide) rfl).2.2
